import Mathlib

/-!
Verification of the dynamic plugin-loading subsystem
(`src/dynamic-loading/plugin_manager.{h,cpp}`, `plugin.h`, `main.cpp`).

The C++ code is shallowly embedded as follows.  A `Plugin` descriptor is
the fixed-layout record of `plugin.h`: an opaque state pointer plus four
function-pointer slots; pointers are modelled as `Nat` identifiers, since
the host never dereferences them and only passes them back verbatim.
The platform primitives `dlopen`/`dlsym`/`plugin_register` are external to
the program, so each `load` call takes the response of the environment for that
call (`LoadOutcome`): `dlopen` fails, `dlsym` fails, or registration
returns a descriptor.  Every indirect call the manager makes through a
function pointers of a plugin, and every `dlclose`, is recorded as an `Event`
in an output trace, so that call ordering can be stated and proved.
-/

/-- The plugin descriptor of `plugin.h`: an opaque `data` pointer and four
function-pointer slots, each modelled as an abstract identifier. -/
structure Plugin where
  data : Nat
  on_plugin_load : Nat
  on_plugin_unload : Nat
  on_file_save : Nat
  name : Nat
  deriving DecidableEq, Repr

/-- Observable actions of the manager: the indirect calls it makes through
plugin function pointers (with the arguments it passes) and `dlclose` calls
on library handles. -/
inductive Event where
  /-- `plugin.on_plugin_load(plugin.data)` -/
  | onLoad (p : Plugin)
  /-- `plugin.on_plugin_unload(plugin.data)` -/
  | onUnload (p : Plugin)
  /-- `plugin.on_file_save(plugin.data, filename, contents)` -/
  | fileSave (p : Plugin) (filename : String) (contents : String)
  /-- `dlclose(library)` -/
  | close (library : Nat)
  deriving DecidableEq, Repr

/-- The response of the environment to one `load(filename)` call: either
`dlopen` returns `nullptr`, or `dlsym(library, "plugin_register")` returns
`nullptr`, or the registration function returns descriptor `p`. -/
inductive LoadOutcome where
  | openFails
  | missingSymbol
  | registered (p : Plugin)
  deriving DecidableEq, Repr

/-- The observable result of a `load` call.  The C++ method returns `void`
but reports the failure stage on `stderr`; this value records which of the
three diagnostic paths was taken. -/
inductive LoadResult where
  /-- `"Unable to load the <filename> library"` was printed -/
  | loadFailure
  /-- the missing `plugin_register` diagnostic was printed -/
  | missingSymbol
  | ok
  deriving DecidableEq, Repr

/-- The private state of the manager (`plugin_manager.h`): the vector of library
handles and the vector of plugin descriptors, both insertion-ordered. -/
structure PluginManager where
  libraries : List Nat
  plugins : List Plugin
  deriving DecidableEq, Repr

namespace PluginManager

/-- The freshly constructed manager: both vectors empty. -/
def init : PluginManager := ⟨[], []⟩

/-- `PluginManager::clear` (`plugin_manager.cpp:6`): call `on_plugin_unload` of
each plugin in order, then `dlclose` each library in order, then
clear both vectors.  Returns the new state and the emitted event trace. -/
def clear (pm : PluginManager) : PluginManager × List Event :=
  (⟨[], []⟩,
   pm.plugins.map (fun p => Event.onUnload p) ++
     pm.libraries.map (fun l => Event.close l))

/-- `PluginManager::load` (`plugin_manager.cpp:27`).  `handle` is the value
`dlopen` would return on success; `outcome` is the response of the environment.
On `dlopen` failure nothing changes; once the image is mapped the handle is
pushed onto `libraries`; on `dlsym` failure the method returns with the
handle still retained; on successful registration `on_plugin_load` is
invoked and the descriptor is pushed onto `plugins`. -/
def load (pm : PluginManager) (handle : Nat) (outcome : LoadOutcome) :
    PluginManager × List Event × LoadResult :=
  match outcome with
  | .openFails => (pm, [], .loadFailure)
  | .missingSymbol =>
      (⟨pm.libraries ++ [handle], pm.plugins⟩, [], .missingSymbol)
  | .registered p =>
      (⟨pm.libraries ++ [handle], pm.plugins ++ [p]⟩,
       [Event.onLoad p], .ok)

/-- `PluginManager::on_file_save` (`plugin_manager.cpp:53`): call each
`on_file_save` slot of each plugin with its own `data` pointer and the given
filename and contents, in vector order.  The vectors are not modified. -/
def on_file_save (pm : PluginManager) (filename contents : String) :
    PluginManager × List Event :=
  (pm, pm.plugins.map (fun p => Event.fileSave p filename contents))

end PluginManager

/-- One public operation on the manager, for whole-run statements.  A
`load` op carries the response of the environment for that call. -/
inductive Op where
  | load (handle : Nat) (outcome : LoadOutcome)
  | save (filename contents : String)
  | clear
  deriving DecidableEq, Repr

/-- Run a sequence of public operations from a state, accumulating the
event trace. -/
def run (pm : PluginManager) : List Op → PluginManager × List Event
  | [] => (pm, [])
  | op :: ops =>
      let (pm', tr) :=
        match op with
        | .load h outcome =>
            let (pm', tr, _) := pm.load h outcome
            (pm', tr)
        | .save f c => pm.on_file_save f c
        | .clear => pm.clear
      let (pm'', tr') := run pm' ops
      (pm'', tr ++ tr')

/-- `main` (`main.cpp:4`).  `args` is the full `argv` (program name
included, so `argc = args.length`); `handle`/`outcome` describe the
response of the environment to the single `load` call.  With the wrong argument
count it prints a usage line and returns 1; otherwise it loads the plugin,
broadcasts four file-save events for `hello_world.txt` with the successive
buffer contents, lets the manager destructor run `clear`, and
returns 0 regardless of the result of the load. -/
def mainDriver (args : List String) (handle : Nat) (outcome : LoadOutcome) :
    Nat × List String × List Event :=
  if args.length ≠ 2 then
    (1, ["USAGE: " ++ args.headD "" ++ " <plugin.so>"], [])
  else
    let buf1 : String := ""
    let buf2 : String := buf1 ++ "Hello World!"
    let buf3 : String := buf2 ++
      "Lorem ipsum dolor sit amet, consectetur adipiscing elit, sed do" ++
      "eiusmod tempor incididunt ut labore et dolore magna aliqua. Ut enim ad" ++
      "minim veniam, quis nostrud exercitation ullamco laboris nisi ut aliquip" ++
      "ex ea commodo consequat. Duis aute irure dolor in reprehenderit in"
    let buf4 : String := ""
    let (pm1, tr1, _) := PluginManager.init.load handle outcome
    let (pm2, tr2) := pm1.on_file_save "hello_world.txt" buf1
    let (pm3, tr3) := pm2.on_file_save "hello_world.txt" buf2
    let (pm4, tr4) := pm3.on_file_save "hello_world.txt" buf3
    let (pm5, tr5) := pm4.on_file_save "hello_world.txt" buf4
    let (_, tr6) := pm5.clear
    (0, [], tr1 ++ tr2 ++ tr3 ++ tr4 ++ tr5 ++ tr6)

/-- A sample descriptor for concrete witnesses. -/
def samplePlugin : Plugin := ⟨10, 11, 12, 13, 14⟩

section Lemmas

/-- Unfolding lemma for `run` on a `load` op. -/
lemma run_cons_load (pm : PluginManager) (h : Nat) (o : LoadOutcome)
    (ops : List Op) :
    run pm (Op.load h o :: ops) =
      ((run (pm.load h o).1 ops).1,
        (pm.load h o).2.1 ++ (run (pm.load h o).1 ops).2) := by
  simp [run]

/-- Unfolding lemma for `run` on a `save` op. -/
lemma run_cons_save (pm : PluginManager) (f c : String) (ops : List Op) :
    run pm (Op.save f c :: ops) =
      ((run (pm.on_file_save f c).1 ops).1,
        (pm.on_file_save f c).2 ++ (run (pm.on_file_save f c).1 ops).2) := by
  simp [run]

/-- Unfolding lemma for `run` on a `clear` op. -/
lemma run_cons_clear (pm : PluginManager) (ops : List Op) :
    run pm (Op.clear :: ops) =
      ((run (pm.clear).1 ops).1, (pm.clear).2 ++ (run (pm.clear).1 ops).2) := by
  simp [run]

end Lemmas

/-- C1: `clear` first emits the unload call of every instance in load
order, then the close of every handle in load order — the observed trace
is exactly `[unload_1, ..., unload_N, close_1, ..., close_N]` — and the
resulting state has both collections empty. -/
theorem clear_unloads_all_then_closes_all (pm : PluginManager) :
    (pm.clear).2 =
      pm.plugins.map (fun p => Event.onUnload p) ++
        pm.libraries.map (fun l => Event.close l) ∧
    (pm.clear).1.plugins = [] ∧ (pm.clear).1.libraries = [] :=
  ⟨rfl, rfl, rfl⟩

/-- C5: loading a library that maps but lacks the `plugin_register` symbol
reports the missing-symbol failure, leaves the plugin vector exactly as it
was (so the instance count is unchanged), and invokes no plugin
callback (the emitted trace is empty). -/
theorem missing_symbol_leaves_instances_unchanged
    (pm : PluginManager) (h : Nat) :
    (pm.load h .missingSymbol).2.2 = LoadResult.missingSymbol ∧
    (pm.load h .missingSymbol).1.plugins = pm.plugins ∧
    (pm.load h .missingSymbol).2.1 = [] :=
  ⟨rfl, rfl, rfl⟩

/-- C6: `clear` is idempotent — a second `clear` right after a first one
emits no events (no unload callbacks, no closes) and leaves the state
exactly as the first `clear` left it. -/
theorem clear_idempotent (pm : PluginManager) :
    ((pm.clear).1.clear).2 = [] ∧ ((pm.clear).1.clear).1 = (pm.clear).1 :=
  ⟨rfl, rfl⟩

/-- C7: one `on_file_save` broadcast emits exactly one file-save call per
loaded instance, in load order, each carrying the `data` pointer of that
instance together with the given filename and contents. -/
theorem file_save_broadcast_once_per_instance_in_order
    (pm : PluginManager) (f c : String) :
    (pm.on_file_save f c).2 =
      pm.plugins.map (fun p => Event.fileSave p f c) :=
  rfl

/-- C10: broadcasting a file-save event does not modify the state of the
manager: the handle vector and the plugin vector (descriptors and `data`
pointers included) are returned exactly as they were. -/
theorem file_save_preserves_manager_state
    (pm : PluginManager) (f c : String) :
    (pm.on_file_save f c).1 = pm :=
  rfl

/-- Recognizer for the one operation that maps an image but fails before
producing an instance: a `load` whose `dlsym` lookup fails. -/
def Op.failsAfterMap : Op → Bool
  | .load _ .missingSymbol => true
  | _ => false

/-- In a run with no missing-symbol load, every step preserves equality of
the two vector lengths. -/
lemma run_preserves_alignment (ops : List Op) (pm : PluginManager)
    (hpm : pm.libraries.length = pm.plugins.length)
    (h : ∀ op ∈ ops, op.failsAfterMap = false) :
    (run pm ops).1.libraries.length = (run pm ops).1.plugins.length := by
  induction ops generalizing pm with
  | nil => simpa [run] using hpm
  | cons op ops ih =>
    have hop : op.failsAfterMap = false := h op (by simp)
    have hrest : ∀ o ∈ ops, o.failsAfterMap = false := by
      intro o ho; exact h o (by simp [ho])
    cases op with
    | load hd outcome =>
      cases outcome with
      | openFails =>
        rw [run_cons_load]
        exact ih (pm.load hd .openFails).1 hpm hrest
      | missingSymbol => simp [Op.failsAfterMap] at hop
      | registered p =>
        rw [run_cons_load]
        refine ih (pm.load hd (.registered p)).1 ?_ hrest
        simp [PluginManager.load, hpm]
    | save f c =>
      rw [run_cons_save]
      exact ih (pm.on_file_save f c).1 hpm hrest
    | clear =>
      rw [run_cons_clear]
      exact ih (pm.clear).1 rfl hrest

/-- C2 counterexample: after a single failed `load` (image mapped, symbol
missing) on a fresh manager, the handle vector has one element while the
instance vector is empty — the claimed alignment does not hold after every
public operation including failed loads. -/
theorem alignment_fails_after_missing_symbol_load :
    (run PluginManager.init [Op.load 0 .missingSymbol]).1.libraries.length ≠
      (run PluginManager.init [Op.load 0 .missingSymbol]).1.plugins.length := by
  decide

/-- C2 amended: for every sequence of load, broadcast, and shutdown
operations in which no load fails after the image is mapped (no
missing-symbol load), the handle vector and the instance vector have the
same length after the run; a missing-symbol load instead leaves the handle
vector exactly one element longer than before while the instance vector is
unchanged. -/
theorem alignment_holds_without_partial_failures (ops : List Op)
    (h : ∀ op ∈ ops, op.failsAfterMap = false) :
    (run PluginManager.init ops).1.libraries.length =
      (run PluginManager.init ops).1.plugins.length :=
  run_preserves_alignment ops PluginManager.init rfl h

/-- Concrete instantiation of the amended C2 theorem on a three-op run. -/
theorem alignment_holds_without_partial_failures_witness :
    (run PluginManager.init
        [Op.load 0 (.registered samplePlugin), Op.save "a" "b",
          Op.clear]).1.libraries.length =
      (run PluginManager.init
        [Op.load 0 (.registered samplePlugin), Op.save "a" "b",
          Op.clear]).1.plugins.length :=
  alignment_holds_without_partial_failures
    [Op.load 0 (.registered samplePlugin), Op.save "a" "b", Op.clear]
    (by decide)

/-- C3 counterexample: after a fresh manager loads a library whose
registration symbol is missing, the mapped handle (here `0`) is still in
the managed handle vector when `load` returns, and `load` emitted no
close event — the manager did not close the partially-loaded handle. -/
theorem failed_load_handle_remains_mapped :
    0 ∈ (PluginManager.init.load 0 .missingSymbol).1.libraries ∧
      Event.close 0 ∉ (PluginManager.init.load 0 .missingSymbol).2.1 := by
  decide

/-- C3 amended: a `load` that fails after mapping (missing registration
symbol) does not close the handle itself; instead the manager retains the
handle at the end of its handle vector, emits no event during the failed
`load`, and the retained handle is closed later, when `clear` runs. -/
theorem failed_load_retains_handle_until_clear
    (pm : PluginManager) (h : Nat) :
    (pm.load h .missingSymbol).1.libraries = pm.libraries ++ [h] ∧
    (pm.load h .missingSymbol).2.1 = [] ∧
    Event.close h ∈ ((pm.load h .missingSymbol).1.clear).2 := by
  refine ⟨rfl, rfl, ?_⟩
  simp [PluginManager.load, PluginManager.clear]

/-- C4 counterexample: immediately after `clear` on a fresh manager, a
`load` of a working plugin succeeds (result `ok`, one instance appended)
— there is no terminal Closed state and no ManagerClosed error in the
code. -/
theorem load_succeeds_after_clear :
    ((PluginManager.init.clear).1.load 0
        (.registered samplePlugin)).2.2 = LoadResult.ok ∧
      ((PluginManager.init.clear).1.load 0
        (.registered samplePlugin)).1.plugins.length = 1 := by
  decide

/-- C4 amended: after `clear` the instance and handle counts are both
zero, but the manager is not in a terminal state: a subsequent `load`
behaves exactly as on a freshly constructed manager (in particular it can
succeed; no ManagerClosed error exists). -/
theorem clear_empties_and_resets_to_init
    (pm : PluginManager) (h : Nat) (o : LoadOutcome) :
    (pm.clear).1.plugins.length = 0 ∧
    (pm.clear).1.libraries.length = 0 ∧
    (pm.clear).1.load h o = PluginManager.init.load h o :=
  ⟨rfl, rfl, rfl⟩

/-- In the `clear` trace every unload event occurs at a strictly smaller
index than every close event. -/
lemma clear_unload_before_close (pm : PluginManager) (i j : Nat)
    (q : Plugin) (l : Nat)
    (hi : (pm.clear).2[i]? = some (Event.onUnload q))
    (hj : (pm.clear).2[j]? = some (Event.close l)) : i < j := by
  have htr : (pm.clear).2 =
      pm.plugins.map (fun p => Event.onUnload p) ++
        pm.libraries.map (fun x => Event.close x) := rfl
  rw [htr] at hi hj
  have hiA : i < (pm.plugins.map (fun p => Event.onUnload p)).length := by
    by_contra hlt
    push_neg at hlt
    rw [List.getElem?_append_right hlt] at hi
    rcases List.mem_map.mp (List.getElem?_mem hi) with ⟨x, _, hx⟩
    exact Event.noConfusion hx
  have hjA : (pm.plugins.map (fun p => Event.onUnload p)).length ≤ j := by
    by_contra hlt
    push_neg at hlt
    rw [List.getElem?_append_left hlt] at hj
    rcases List.mem_map.mp (List.getElem?_mem hj) with ⟨x, _, hx⟩
    exact Event.noConfusion hx
  exact lt_of_lt_of_le hiA hjA

/-- The `clear` trace contains exactly as many unload events for a
descriptor as the plugin vector contains copies of it. -/
lemma clear_count_unload (pm : PluginManager) (p : Plugin) :
    (pm.clear).2.count (Event.onUnload p) = pm.plugins.count p := by
  have htr : (pm.clear).2 =
      pm.plugins.map (fun q => Event.onUnload q) ++
        pm.libraries.map (fun x => Event.close x) := rfl
  rw [htr, List.count_append]
  have h1 : (pm.plugins.map (fun q => Event.onUnload q)).count
      (Event.onUnload p) = pm.plugins.count p :=
    List.count_map_of_injective _ _ (fun a b hab => by injection hab) p
  have h2 : (pm.libraries.map (fun x => Event.close x)).count
      (Event.onUnload p) = 0 := by
    rw [List.count_eq_zero]
    intro hmem
    rcases List.mem_map.mp hmem with ⟨x, _, hx⟩
    exact Event.noConfusion hx
  omega

/-- C8: a successful `load` invokes `on_plugin_load` exactly once, before
returning (its trace is exactly the one load event); neither a file-save
broadcast nor `clear` ever emits a load event; for an instance stored
once, `clear` emits its unload event exactly once; and in that trace every
unload event precedes every close event, so the instance is finalized
before its owning library (or any library) is unmapped. -/
theorem lifecycle_callbacks_called_exactly_once
    (pm : PluginManager) (h : Nat) (p : Plugin) (f c : String)
    (hp : pm.plugins.count p = 1) :
    (pm.load h (.registered p)).2.1 = [Event.onLoad p] ∧
    (∀ q : Plugin, Event.onLoad q ∉ (pm.on_file_save f c).2) ∧
    (∀ q : Plugin, Event.onLoad q ∉ (pm.clear).2) ∧
    (pm.clear).2.count (Event.onUnload p) = 1 ∧
    (∀ (i j l : Nat) (q : Plugin),
      (pm.clear).2[i]? = some (Event.onUnload q) →
      (pm.clear).2[j]? = some (Event.close l) → i < j) := by
  refine ⟨rfl, ?_, ?_, ?_, ?_⟩
  · intro q
    simp [PluginManager.on_file_save]
  · intro q
    simp [PluginManager.clear]
  · rw [clear_count_unload]
    exact hp
  · intro i j l q hi hj
    exact clear_unload_before_close pm i j q l hi hj

/-- Concrete instantiation of the C8 theorem on a one-plugin manager. -/
theorem lifecycle_callbacks_called_exactly_once_witness :
    (PluginManager.mk [0] [samplePlugin]).plugins.count samplePlugin = 1 ∧
      ((PluginManager.mk [0] [samplePlugin]).clear).2.count
        (Event.onUnload samplePlugin) = 1 :=
  ⟨by decide,
    (lifecycle_callbacks_called_exactly_once
      (PluginManager.mk [0] [samplePlugin]) 1 samplePlugin "f" "c"
      (by decide)).2.2.2.1⟩

/-- C9: the driver exits with code 1 and prints the usage line when the
argument count (program name included) is not exactly 2, and exits with
code 0 otherwise — whatever the outcome of the plugin load, a load
failure included. -/
theorem main_exit_codes (args : List String) (handle : Nat)
    (outcome : LoadOutcome) :
    (args.length = 2 → (mainDriver args handle outcome).1 = 0) ∧
    (args.length ≠ 2 →
      (mainDriver args handle outcome).1 = 1 ∧
      (mainDriver args handle outcome).2.1 =
        ["USAGE: " ++ args.headD "" ++ " <plugin.so>"]) := by
  constructor
  · intro h2
    rcases outcome with _ | _ | p <;>
      simp [mainDriver, h2, PluginManager.init, PluginManager.load,
        PluginManager.on_file_save, PluginManager.clear]
  · intro h2
    simp [mainDriver, h2]

/-- Concrete instantiation of the C9 theorem: a two-element argv exits 0
even when `dlopen` fails, and a one-element argv exits 1. -/
theorem main_exit_codes_witness :
    (mainDriver ["editor", "plugin.so"] 0 .openFails).1 = 0 ∧
      (mainDriver ["editor"] 0 .openFails).1 = 1 :=
  ⟨(main_exit_codes ["editor", "plugin.so"] 0 .openFails).1 rfl,
    ((main_exit_codes ["editor"] 0 .openFails).2 (by decide)).1⟩
